import Mathlib

/-!
# Verification of the aurelia-api core against its source

Shallow embedding of the repository's core logic:

* `getRequestPath` (src/src/rest.ts)   — path/query construction,
* `Rest.request`   (src/src/rest.ts)   — option merging, body serialization
  and response normalization,
* `Config`         (src/config, as shipped in dist/native-modules) —
  the endpoint registry.

JavaScript values appearing in these functions (criteria objects,
request-option objects, bodies, header maps) are modelled by the
inductive `JVal`; JS objects become association lists of fields.
`Nat` ids on registry clients model JavaScript object identity
(each `new` allocates a fresh id).
-/

set_option autoImplicit false

/-- A JavaScript value as used by the library core: `undefined`, `null`,
strings, (integral) numbers, and plain objects (field association lists). -/
inductive JVal where
  | undefined
  | null
  | str (s : String)
  | num (n : Int)
  | obj (fields : List (String × JVal))

/-- JavaScript truthiness of a `JVal` (`undefined`, `null`, `""` and `0`
are falsy; every object is truthy). -/
def jsTruthy : JVal → Bool
  | .undefined => false
  | .null => false
  | .str s => !(s == "")
  | .num n => !(n == 0)
  | .obj _ => true

/-- JavaScript `a || b`. -/
def jsOr (a b : JVal) : JVal :=
  if jsTruthy a then a else b

/-- JavaScript string coercion (template-literal / `String(...)` form)
for the values the library feeds into strings. -/
def jsDisplay : JVal → String
  | .undefined => "undefined"
  | .null => "null"
  | .str s => s
  | .num n => toString n
  | .obj _ => "[object Object]"

/-- Property read on a JS object modelled as a field list
(first matching key; `undefined` when absent). -/
def getF : List (String × JVal) → String → JVal
  | [], _ => .undefined
  | (k, v) :: rest, key => if k = key then v else getF rest key

/-- Property write on a JS object modelled as a field list
(replaces the first matching key, else appends). -/
def setF : List (String × JVal) → String → JVal → List (String × JVal)
  | [], key, v => [(key, v)]
  | (k, w) :: rest, key, v =>
    if k = key then (key, v) :: rest else (k, w) :: setF rest key v

mutual

/-- One property-copy step of the npm `extend(true, ...)` deep merge:
an `undefined` source value is skipped (the target keeps its value), a
plain-object source value is merged recursively into the target value
(reset to `{}` when the target value is not itself a plain object), and
any other source value overwrites the target value. -/
def extendField (src : JVal) : JVal → JVal
  | .undefined => src
  | .obj cf =>
    .obj (extendFields (match src with | .obj sf => sf | _ => []) cf)
  | .null => .null
  | .str s => .str s
  | .num n => .num n

/-- Folds the fields of one source object into a target field list,
property by property, as `extend(true, target, source)` does. -/
def extendFields (t : List (String × JVal)) : List (String × JVal) → List (String × JVal)
  | [] => t
  | (k, v) :: rest => extendFields (setF t k (extendField (getF t k) v)) rest

end

/-- Field read lifted to `JVal` (`undefined` on non-objects). -/
def objField : JVal → String → JVal
  | .obj f, key => getF f key
  | _, _ => .undefined

/-- JS `s.toLowerCase()`, written over the character list so that it
evaluates by kernel reduction. -/
def toLowerStr (s : String) : String :=
  String.mk (s.data.map Char.toLower)

/-- Last character of a string equals `c` (the JS idiom
`s.slice(-1) === c`), written over the character list so that it
evaluates by kernel reduction. -/
def lastCharIs (s : String) (c : Char) : Bool :=
  s.data.getLast? == some c

/-- First characters of a string (the JS idiom `s.indexOf(p) === 0`),
written over the character list so that it evaluates by kernel
reduction. -/
def firstCharsAre (s : String) (p : List Char) : Bool :=
  p.isPrefixOf s.data

/-- Split a character list at every occurrence of `c`
(JS `s.split(c)` for a one-character separator). -/
def splitCharsOn (c : Char) : List Char → List Char → List String
  | [], acc => [String.mk acc.reverse]
  | x :: xs, acc =>
    if x = c then String.mk acc.reverse :: splitCharsOn c xs []
    else splitCharsOn c xs (x :: acc)

/-- JS `s.split('/')`. -/
def splitOnSlash (s : String) : List String :=
  splitCharsOn '/' s.data []

/-- Join strings with a separator (reduction-friendly
reimplementation of `Array.prototype.join`). -/
def joinWith (sep : String) : List String → String
  | [] => ""
  | [x] => x
  | x :: y :: rest => x ++ sep ++ joinWith sep (y :: rest)

/-- Modelled from the dependency aurelia-path (external to this
repository): the segment accumulation of `join(path1, path2)` — drops
empty and `.` segments and resolves `..` by popping. -/
def joinSegs (acc : List String) : List String → List String
  | [] => acc
  | s :: rest =>
    if s = ".." then joinSegs acc.dropLast rest
    else if s = "." ∨ s = "" then joinSegs acc rest
    else joinSegs (acc ++ [s]) rest

/-- Modelled from the dependency aurelia-path (external to this
repository): `join(path1, path2)` for scheme-less paths.  Splits both
paths on `/`, accumulates segments via `joinSegs`, keeps a
leading-slash prefix of `path1` and a trailing slash of `path2`, and
rejoins with single slashes — so the result is free of double
slashes. -/
def join (path1 path2 : String) : String :=
  if path1 = "" then path2
  else if path2 = "" then path1
  else
    let urlPrefix :=
      if firstCharsAre path1 ['/', '/'] then "//"
      else if firstCharsAre path1 ['/'] then "/"
      else ""
    let trailingSlash := if lastCharIs path2 '/' then "/" else ""
    let segs := joinSegs (joinSegs [] (splitOnSlash path1)) (splitOnSlash path2)
    urlPrefix ++ joinWith "/" segs ++ trailingSlash

/-- Display of a field value inside a query string (modelled from the
dependency aurelia-path, flat mappings; URL-escaping elided). -/
def queryDisplay : JVal → String
  | .str s => s
  | .num n => toString n
  | .null => "null"
  | .undefined => "undefined"
  | .obj _ => ""

/-- Modelled from the dependency aurelia-path (external to this
repository): `buildQueryString` on a flat field mapping — `k=v` pairs
joined by `&`; the empty mapping serializes to the empty string. -/
def buildQueryStringJ (fields : List (String × JVal)) : String :=
  joinWith "&" (fields.map fun p => p.1 ++ "=" ++ queryDisplay p.2)

/-- `getRequestPath(resource, idOrCriteria, criteria)` from
src/src/rest.ts: joins a scalar id into the path (re-appending a
trailing slash when the resource had one), otherwise treats
`idOrCriteria` as the criteria; a non-null object criteria becomes a
`?`-query, a truthy scalar criteria becomes a fallback path segment,
anything else leaves the path unchanged. -/
def getRequestPath (resource : String) (idOrCriteria : JVal) (criteria : JVal) : String :=
  let hasSlash := lastCharIs resource '/'
  let rc : String × JVal :=
    match idOrCriteria with
    | .str s => (join resource s ++ (if hasSlash then "/" else ""), criteria)
    | .num n => (join resource (toString n) ++ (if hasSlash then "/" else ""), criteria)
    | other => (resource, other)
  match rc.2 with
  | .obj m => rc.1 ++ "?" ++ buildQueryStringJ m
  | c =>
    if jsTruthy c then
      rc.1 ++ (if hasSlash then "" else "/") ++ jsDisplay c ++ (if hasSlash then "/" else "")
    else rc.1

mutual

/-- Modelled from the external `JSON.stringify` for the values of
`JVal` (string escaping elided; `undefined`-valued fields are
skipped as `JSON.stringify` does). -/
def jsonStringify : JVal → String
  | .undefined => "undefined"
  | .null => "null"
  | .str s => "\"" ++ s ++ "\""
  | .num n => toString n
  | .obj fs => "\x7b" ++ joinWith "," (jsonStringifyFields fs) ++ "\x7d"

/-- Serialized `"key":value` fields of an object, skipping
`undefined` values. -/
def jsonStringifyFields : List (String × JVal) → List String
  | [] => []
  | (k, v) :: rest =>
    match v with
    | .undefined => jsonStringifyFields rest
    | w => ("\"" ++ k ++ "\":" ++ jsonStringify w) :: jsonStringifyFields rest

end

/-- A `RequestInit` options object (per the TS signatures always a
plain object when present), modelled as a field list; a JS `Headers`
container is modelled as a plain field map. -/
abbrev RequestOptions : Type := List (String × JVal)

/-- The Rest client (src/src/rest.ts): what the claims need of its
state is the `defaults` request options and the endpoint name; the
fetch client is an external collaborator passed to `Rest.request` as a
function. -/
structure Rest where
  defaults : RequestOptions
  endpoint : String

/-- `extend(true, {headers: {}}, this.defaults, options || {}, {method, body})`
from `Rest.request`: the effective request options.  The optional
`options` argument is `{}` when absent; the final layer force-merges
the call's `method` and `body`, with `extend`'s per-property rules
(an `undefined` `body` is skipped, an object `body` deep-merges). -/
def requestOptionsOf (defaults : RequestOptions) (options : Option RequestOptions)
    (method : String) (body : JVal) : RequestOptions :=
  extendFields
    (extendFields (extendFields [("headers", .obj [])] defaults)
      (match options with | some o => o | none => []))
    [("method", .str method), ("body", body)]

/-- `requestOptions.headers['Content-Type'] || requestOptions.headers['content-type']`
from `Rest.request`. -/
def contentTypeOf (requestOptions : RequestOptions) : JVal :=
  jsOr (objField (getF requestOptions "headers") "Content-Type")
       (objField (getF requestOptions "headers") "content-type")

/-- The body-serialization step of `Rest.request`: when the `body`
argument is a non-null object and a content type resolved from the
merged headers is truthy, `requestOptions.body` is replaced by the
JSON text of the body argument when the content type lower-cases to
`application/json`, else by its query-string serialization; otherwise
the request options are left unchanged. -/
def applyBodySerialization (requestOptions : RequestOptions) (body : JVal) : RequestOptions :=
  let contentType := contentTypeOf requestOptions
  match body with
  | .obj bf =>
    if jsTruthy contentType then
      setF requestOptions "body"
        (.str (if toLowerStr (jsDisplay contentType) = "application/json"
               then jsonStringify (.obj bf)
               else buildQueryStringJ bf))
    else requestOptions
  | _ => requestOptions

/-- The request options `Rest.request` hands to `client.fetch`:
the deep merge followed by the body-serialization step. -/
def finalRequestOptions (defaults : RequestOptions) (options : Option RequestOptions)
    (method : String) (body : JVal) : RequestOptions :=
  applyBodySerialization (requestOptionsOf defaults options method body) body

/-- The transport's response as seen by `Rest.request`'s `.then`
handler: a numeric status and the outcome of `response.json()`
(`none` models a JSON parse failure, e.g. an empty body). -/
structure TransportResponse (α : Type) where
  status : Int
  parsed : Option α

/-- The response normalization of `Rest.request`: a status in
`[200, 400)` resolves with the parse outcome (`none` — JS `null` — on
parse failure), any other status throws the raw response. -/
def handleResponse {α : Type} (response : TransportResponse α) : Except (TransportResponse α) (Option α) :=
  if response.status ≥ 200 ∧ response.status < 400 then Except.ok response.parsed
  else Except.error response

/-- `Rest.request(method, path, body, options)` (src/src/rest.ts):
merge options, serialize the body, call the transport, normalize the
response. The fetch client is modelled as a function from path and
request options to the transport's response. -/
def Rest.request {α : Type} (rest : Rest) (client : String → RequestOptions → TransportResponse α)
    (method path : String) (body : JVal) (options : Option RequestOptions) :
    Except (TransportResponse α) (Option α) :=
  handleResponse (client path (finalRequestOptions rest.defaults options method body))

/-- GET on a resource with criteria (src/src/rest.ts `find`). -/
def Rest.find {α : Type} (rest : Rest) (client : String → RequestOptions → TransportResponse α)
    (resource : String) (criteria : JVal) (options : Option RequestOptions) :
    Except (TransportResponse α) (Option α) :=
  rest.request client "GET" (getRequestPath resource criteria .undefined) .undefined options

/-- GET on a resource with id and criteria (src/src/rest.ts `findOne`). -/
def Rest.findOne {α : Type} (rest : Rest) (client : String → RequestOptions → TransportResponse α)
    (resource : String) (id criteria : JVal) (options : Option RequestOptions) :
    Except (TransportResponse α) (Option α) :=
  rest.request client "GET" (getRequestPath resource id criteria) .undefined options

/-- POST on a resource (src/src/rest.ts `post`). -/
def Rest.post {α : Type} (rest : Rest) (client : String → RequestOptions → TransportResponse α)
    (resource : String) (body : JVal) (options : Option RequestOptions) :
    Except (TransportResponse α) (Option α) :=
  rest.request client "POST" resource body options

/-- PUT on a resource with criteria (src/src/rest.ts `update`). -/
def Rest.update {α : Type} (rest : Rest) (client : String → RequestOptions → TransportResponse α)
    (resource : String) (criteria body : JVal) (options : Option RequestOptions) :
    Except (TransportResponse α) (Option α) :=
  rest.request client "PUT" (getRequestPath resource criteria .undefined) body options

/-- PUT on a resource with id and criteria (src/src/rest.ts `updateOne`). -/
def Rest.updateOne {α : Type} (rest : Rest) (client : String → RequestOptions → TransportResponse α)
    (resource : String) (id criteria body : JVal) (options : Option RequestOptions) :
    Except (TransportResponse α) (Option α) :=
  rest.request client "PUT" (getRequestPath resource id criteria) body options

/-- PATCH on a resource with criteria (src/src/rest.ts `patch`). -/
def Rest.patch {α : Type} (rest : Rest) (client : String → RequestOptions → TransportResponse α)
    (resource : String) (criteria body : JVal) (options : Option RequestOptions) :
    Except (TransportResponse α) (Option α) :=
  rest.request client "PATCH" (getRequestPath resource criteria .undefined) body options

/-- PATCH on a resource with id and criteria (src/src/rest.ts `patchOne`). -/
def Rest.patchOne {α : Type} (rest : Rest) (client : String → RequestOptions → TransportResponse α)
    (resource : String) (id criteria body : JVal) (options : Option RequestOptions) :
    Except (TransportResponse α) (Option α) :=
  rest.request client "PATCH" (getRequestPath resource id criteria) body options

/-- DELETE on a resource with criteria (src/src/rest.ts `destroy`). -/
def Rest.destroy {α : Type} (rest : Rest) (client : String → RequestOptions → TransportResponse α)
    (resource : String) (criteria : JVal) (options : Option RequestOptions) :
    Except (TransportResponse α) (Option α) :=
  rest.request client "DELETE" (getRequestPath resource criteria .undefined) .undefined options

/-- DELETE on a resource with id and criteria (src/src/rest.ts `destroyOne`). -/
def Rest.destroyOne {α : Type} (rest : Rest) (client : String → RequestOptions → TransportResponse α)
    (resource : String) (id criteria : JVal) (options : Option RequestOptions) :
    Except (TransportResponse α) (Option α) :=
  rest.request client "DELETE" (getRequestPath resource id criteria) .undefined options

/-- POST alias (src/src/rest.ts `create`). -/
def Rest.create {α : Type} (rest : Rest) (client : String → RequestOptions → TransportResponse α)
    (resource : String) (body : JVal) (options : Option RequestOptions) :
    Except (TransportResponse α) (Option α) :=
  rest.post client resource body options

/-- A registry-side view of a configured Rest client.  `id` models
JavaScript object identity: every `new this.RestType(...)` in
`registerEndpoint` allocates a fresh id, so two clients are the same
object exactly when their ids agree.  `baseUrl` records the URL the
fresh fetch client was configured with (`none`: not configured);
`custom` records that a caller-supplied configure callback was applied
instead. -/
structure RestClient where
  id : Nat
  endpoint : String
  defaults : RequestOptions
  baseUrl : Option String
  custom : Bool

/-- The `configureMethod` argument of `registerEndpoint`: absent
(`undefined`), a base-URL string, or a configuration callback. -/
inductive ConfigureSource where
  | absent
  | url (s : String)
  | callback

/-- The plain-object form of the class-level `defaults` of
`Rest`/`DefaultRest` (`Accept` and `Content-Type` set to
`application/json`; the JS `Headers` container is modelled as a plain
field map). -/
def defaultRestDefaults : RequestOptions :=
  [("headers", .obj [("Accept", .str "application/json"),
                     ("Content-Type", .str "application/json")])]

/-- The `Config` registry state (dist/native-modules/aurelia-api.js):
the name→client map, the current default endpoint (a client reference
or unset), the registry-wide default base URL, and the allocator for
client identities. -/
structure Config where
  endpoints : List (String × RestClient)
  defaultEndpoint : Option RestClient
  defaultBaseUrl : Option String
  nextId : Nat

/-- A fresh `Config` (`endpoints = {}`, no default endpoint, no
default base URL). -/
def Config.initial : Config :=
  { endpoints := [], defaultEndpoint := none, defaultBaseUrl := none, nextId := 0 }

/-- Lookup in the endpoints map (`this.endpoints[name]`,
`undefined`/absent modelled as `none`). -/
def lookupEp : List (String × RestClient) → String → Option RestClient
  | [], _ => none
  | (k, v) :: rest, key => if k = key then some v else lookupEp rest key

/-- Store in the endpoints map (`this.endpoints[name] = client`,
overwriting any prior entry under the same name). -/
def storeEp : List (String × RestClient) → String → RestClient → List (String × RestClient)
  | [], key, c => [(key, c)]
  | (k, v) :: rest, key, c =>
    if k = key then (key, c) :: rest else (k, v) :: storeEp rest key c

/-- `Config.prototype.registerEndpoint(name, configureMethod, defaults)`:
creates a fresh client under `name` (overwriting a prior entry),
replaces its defaults wholesale when `defaults` is supplied, and
configures its transport's base URL following the source's branches:
a callback is applied directly; absent `configureMethod` uses the
registry's `defaultBaseUrl` when set and otherwise leaves the
transport unconfigured; a string is used as the base URL. -/
def Config.registerEndpoint (c : Config) (name : String)
    (configureMethod : ConfigureSource) (defaults : Option RequestOptions) : Config :=
  let created : RestClient :=
    { id := c.nextId, endpoint := name, defaults := defaultRestDefaults,
      baseUrl := none, custom := false }
  let created :=
    match defaults with
    | some d => { created with defaults := d }
    | none => created
  let created :=
    match configureMethod with
    | .callback => { created with custom := true }
    | .url s => { created with baseUrl := some s }
    | .absent =>
      match c.defaultBaseUrl with
      | some b => { created with baseUrl := some b }
      | none => created
  { c with endpoints := storeEp c.endpoints name created, nextId := c.nextId + 1 }

/-- `Config.prototype.getEndpoint(name)`: a falsy name (absent or the
empty string) yields the current default endpoint (or null); otherwise
the stored client or null. -/
def Config.getEndpoint (c : Config) (name : Option String) : Option RestClient :=
  match name with
  | none => c.defaultEndpoint
  | some s => if s = "" then c.defaultEndpoint else lookupEp c.endpoints s

/-- `Config.prototype.endpointExists(name)`. -/
def Config.endpointExists (c : Config) (name : String) : Bool :=
  (lookupEp c.endpoints name).isSome

/-- `Config.prototype.setDefaultEndpoint(name)`: resolves `name`
through `getEndpoint` (null when unregistered) and stores the result
as the default. -/
def Config.setDefaultEndpoint (c : Config) (name : String) : Config :=
  { c with defaultEndpoint := c.getEndpoint (some name) }

/-- `Config.prototype.setDefaultBaseUrl(baseUrl)`. -/
def Config.setDefaultBaseUrl (c : Config) (baseUrl : String) : Config :=
  { c with defaultBaseUrl := some baseUrl }

/-- One entry of the bulk-configuration object's `endpoints` array. -/
structure EndpointConfig where
  name : String
  endpoint : ConfigureSource
  config : Option RequestOptions
  isDefault : Bool

/-- The bulk-configuration object accepted by `Config.prototype.configure`. -/
structure BulkConfig where
  defaultBaseUrl : Option String
  endpoints : List EndpointConfig
  defaultEndpoint : Option String

/-- `Config.prototype.configure(config)`: applies a truthy
`defaultBaseUrl`, registers every declared endpoint in order (setting
the default for entries flagged `default: true` as the loop goes),
then applies a truthy top-level `defaultEndpoint` override last. -/
def Config.configure (c : Config) (cfg : BulkConfig) : Config :=
  let c :=
    match cfg.defaultBaseUrl with
    | some s => if s ≠ "" then { c with defaultBaseUrl := some s } else c
    | none => c
  let c := cfg.endpoints.foldl
    (fun acc e =>
      let acc := acc.registerEndpoint e.name e.endpoint e.config
      if e.isDefault then acc.setDefaultEndpoint e.name else acc) c
  match cfg.defaultEndpoint with
  | some s => if s ≠ "" then c.setDefaultEndpoint s else c
  | none => c

/-- The registry invariant of the spec, under object identity: when a
default endpoint is set, some stored client is that same object
(ids model identity, see `RestClient.id`). -/
def registryInvariant (c : Config) : Bool :=
  match c.defaultEndpoint with
  | none => true
  | some cl => c.endpoints.any fun p => p.2.id == cl.id

example : getRequestPath "users" (.num 5) .undefined = "users/5" := by decide
example : getRequestPath "users/" (.num 5) .undefined = "users/5/" := by decide
example : getRequestPath "users" (.num 0) .undefined = "users/0" := by decide
example : getRequestPath "users" (.num 5) (.str "details") = "users/5/details" := by decide
example : getRequestPath "users/" (.num 5) (.str "details") = "users/5/details/" := by decide
example : getRequestPath "users" (.obj []) .undefined = "users?" := by decide
example : getRequestPath "users" .null .undefined = "users" := by decide


/-! ## Helper lemmas -/

/-- Whether a `JVal` is a scalar in the sense of `getRequestPath`'s
`typeof` test (a string or a number). -/
def isScalarJV : JVal → Bool
  | .str _ => true
  | .num _ => true
  | _ => false

/-- Whether a `JVal` is a non-null object (the JS test
`typeof v === 'object' && v !== null` for the modelled values). -/
def isObjJV : JVal → Bool
  | .obj _ => true
  | _ => false

theorem getF_setF_self (l : List (String × JVal)) (k : String) (v : JVal) :
    getF (setF l k v) k = v := by
  induction l with
  | nil => simp [setF, getF]
  | cons p rest ih =>
    obtain ⟨k', w⟩ := p
    by_cases h : k' = k <;> simp [setF, getF, h, ih]

theorem getF_setF_ne (l : List (String × JVal)) (k key : String) (v : JVal)
    (h : key ≠ k) : getF (setF l k v) key = getF l key := by
  have h' : k ≠ key := Ne.symm h
  induction l with
  | nil => simp [setF, getF, h']
  | cons p rest ih =>
    obtain ⟨k', w⟩ := p
    by_cases hk : k' = k
    · subst hk
      simp [setF, getF, h']
    · simp [setF, getF, hk, ih]

theorem lookupEp_any_id (l : List (String × RestClient)) (key : String) (cl : RestClient)
    (h : lookupEp l key = some cl) : (l.any fun p => p.2.id == cl.id) = true := by
  induction l with
  | nil => simp [lookupEp] at h
  | cons p rest ih =>
    obtain ⟨k', w⟩ := p
    by_cases hk : k' = key
    · simp [lookupEp, hk] at h
      subst h
      simp
    · simp [lookupEp, hk] at h
      simp [ih h]

theorem mem_storeEp_of_keyNe (l : List (String × RestClient)) (key : String)
    (c : RestClient) (p : String × RestClient) (hmem : p ∈ l) (hne : p.1 ≠ key) :
    p ∈ storeEp l key c := by
  induction l with
  | nil => simp at hmem
  | cons q rest ih =>
    obtain ⟨k', w⟩ := q
    rcases List.mem_cons.mp hmem with h | h
    · subst h
      by_cases hk : k' = key
      · exact absurd hk hne
      · simp [storeEp, hk]
    · by_cases hk : k' = key
      · simp only [storeEp, if_pos hk]
        exact List.mem_cons_of_mem _ h
      · simp only [storeEp, if_neg hk]
        exact List.mem_cons_of_mem _ (ih h)

/-! ## Claim C1 — scalar-fallback segment of the path builder -/

/-- C1 (counterexample): the claim's "unconditional trailing slash
re-append" is false — for `getRequestPath("users", 5, "details")` the
resource does not end in `/`, and the code appends no trailing slash:
the result is `"users/5/details"`, not `"users/5/details/"`. -/
theorem c1_counterexample :
    getRequestPath "users" (.num 5) (.str "details") = "users/5/details" ∧
    getRequestPath "users" (.num 5) (.str "details") ≠ "users/5/details/" := by
  exact ⟨by decide, by decide⟩

/-- C1 (amended): in the scalar-fallback branch (reached when the id is
a scalar and the resolved filter value is a truthy scalar `c`), the
builder appends `c` to the id-joined path preceded by `/` unless the
resource ends with `/` (then no separator is added), and followed by a
trailing-slash re-append exactly when the resource ends with `/` — the
same flag gates both ends, there is no unconditional re-append. -/
theorem c1_scalar_fallback (r : String) (idv cv : JVal)
    (hid : isScalarJV idv = true) (hcv : isScalarJV cv = true)
    (ht : jsTruthy cv = true) :
    getRequestPath r idv cv =
      (join r (jsDisplay idv) ++ (if lastCharIs r '/' then "/" else "")) ++
        (if lastCharIs r '/' then "" else "/") ++ jsDisplay cv ++
        (if lastCharIs r '/' then "/" else "") := by
  cases idv <;> simp [isScalarJV] at hid <;>
    cases cv <;> simp [isScalarJV] at hcv <;>
      simp [getRequestPath, jsDisplay, ht]

/-- C1 (witness for the amended theorem at a concrete input). -/
theorem c1_scalar_fallback_witness :
    (isScalarJV (.num 5) = true ∧ isScalarJV (.str "details") = true ∧
      jsTruthy (.str "details") = true) ∧
    getRequestPath "users" (.num 5) (.str "details") =
      (join "users" (jsDisplay (.num 5)) ++ (if lastCharIs "users" '/' then "/" else "")) ++
        (if lastCharIs "users" '/' then "" else "/") ++ jsDisplay (.str "details") ++
        (if lastCharIs "users" '/' then "/" else "") :=
  ⟨⟨rfl, rfl, by decide⟩,
   c1_scalar_fallback "users" (.num 5) (.str "details") rfl rfl (by decide)⟩

/-! ## Claim C6 — id join of the path builder -/

/-- C6: for a string or number id, the path builder returns the
double-slash-avoiding `join` of the resource and the id's string form,
re-appending a trailing `/` exactly when the resource ends with `/`;
in particular `users`+`5` gives `users/5`, `users/`+`5` gives
`users/5/`, and id `0` is a valid identifier giving `users/0`. -/
theorem c6_id_path_join :
    (∀ (r s : String), getRequestPath r (.str s) .undefined =
        join r s ++ (if lastCharIs r '/' then "/" else "")) ∧
    (∀ (r : String) (n : Int), getRequestPath r (.num n) .undefined =
        join r (toString n) ++ (if lastCharIs r '/' then "/" else "")) ∧
    getRequestPath "users" (.num 5) .undefined = "users/5" ∧
    getRequestPath "users/" (.num 5) .undefined = "users/5/" ∧
    getRequestPath "users" (.num 0) .undefined = "users/0" :=
  ⟨fun _ _ => rfl, fun _ _ => rfl, by decide, by decide, by decide⟩

/-! ## Claim C9 — filter boundary cases of the path builder -/

/-- C9: an empty mapping as criteria still produces a `?`-prefixed
empty query string, while a `null` criteria is treated as absent and
leaves the resource unchanged. -/
theorem c9_filter_boundaries (r : String) :
    getRequestPath r (.obj []) .undefined = r ++ "?" ∧
    getRequestPath r .null .undefined = r :=
  ⟨by simp [getRequestPath, buildQueryStringJ, joinWith, String.append_empty], rfl⟩

/-! ## Claim C2 — response normalization -/

/-- C2: every CRUD call goes through `Rest.request`; when the transport
responds with status in `[200, 400)` the call resolves with the JSON
parse outcome (`none`, i.e. JS `null`, when parsing fails, e.g. on an
empty body), and for any other status it rejects with the raw response
object itself. -/
theorem c2_response_normalization (α : Type) (rest : Rest)
    (client : String → RequestOptions → TransportResponse α)
    (method path : String) (body : JVal) (options : Option RequestOptions) :
    (200 ≤ (client path (finalRequestOptions rest.defaults options method body)).status ∧
        (client path (finalRequestOptions rest.defaults options method body)).status < 400 →
      rest.request client method path body options =
        Except.ok (client path (finalRequestOptions rest.defaults options method body)).parsed) ∧
    (¬(200 ≤ (client path (finalRequestOptions rest.defaults options method body)).status ∧
        (client path (finalRequestOptions rest.defaults options method body)).status < 400) →
      rest.request client method path body options =
        Except.error (client path (finalRequestOptions rest.defaults options method body))) := by
  unfold Rest.request handleResponse
  exact ⟨fun h => by rw [if_pos h], fun h => by rw [if_neg h]⟩

/-- C2 (witness): a 204 with unparsable body resolves to `null`; a 404
rejects with the raw response. -/
theorem c2_response_normalization_witness :
    (Rest.mk [] "api").request
        (fun _ _ => (⟨204, (none : Option Nat)⟩ : TransportResponse Nat))
        "GET" "users" .undefined none = Except.ok none ∧
    (Rest.mk [] "api").request
        (fun _ _ => (⟨404, (none : Option Nat)⟩ : TransportResponse Nat))
        "GET" "users" .undefined none = Except.error ⟨404, none⟩ :=
  ⟨(c2_response_normalization Nat (Rest.mk [] "api")
      (fun _ _ => ⟨204, none⟩) "GET" "users" .undefined none).1 (by decide),
   (c2_response_normalization Nat (Rest.mk [] "api")
      (fun _ _ => ⟨404, none⟩) "GET" "users" .undefined none).2 (by decide)⟩

/-! ## Claim C4 — request option merging -/

/-- The merge of the empty headers container, the client defaults and
the caller options — the state of the request options just before the
final `{method, body}` layer of `Rest.request`'s `extend` call. -/
def preMergedOptions (defaults : RequestOptions) (options : Option RequestOptions) : RequestOptions :=
  extendFields (extendFields [("headers", .obj [])] defaults)
    (match options with | some o => o | none => [])

/-- C4 (counterexample): the claim's "the method and body arguments
always win" is false for `body`: with an `undefined` body argument and
caller options carrying `body: "keep"`, `extend` skips the undefined
property and the options' body survives the merge. -/
theorem c4_counterexample :
    getF (requestOptionsOf [] (some [("body", .str "keep")]) "GET" .undefined) "body" =
      .str "keep" ∧
    JVal.str "keep" ≠ JVal.undefined :=
  ⟨rfl, fun h => JVal.noConfusion h⟩

/-- C4 (amended): the effective options are the deep merge, in
increasing precedence, of an empty headers container, the client
defaults, the caller options, and the call's `method` and `body` —
where `method` always wins, and `body` wins exactly when it is a
defined non-object value: an `undefined` body argument leaves the body
of the defaults/options merge in place, and an object body argument is
deep-merged over it (the argument's own fields win). -/
theorem c4_merge_precedence (defaults : RequestOptions) (options : Option RequestOptions)
    (method : String) (body : JVal) :
    getF (requestOptionsOf defaults options method body) "method" = .str method ∧
    (body = .undefined →
      getF (requestOptionsOf defaults options method body) "body" =
        getF (preMergedOptions defaults options) "body") ∧
    (∀ s, body = .str s →
      getF (requestOptionsOf defaults options method body) "body" = .str s) ∧
    (∀ n, body = .num n →
      getF (requestOptionsOf defaults options method body) "body" = .num n) ∧
    (body = .null →
      getF (requestOptionsOf defaults options method body) "body" = .null) ∧
    (∀ bf, body = .obj bf →
      getF (requestOptionsOf defaults options method body) "body" =
        extendField (getF (preMergedOptions defaults options) "body") (.obj bf)) := by
  have key : requestOptionsOf defaults options method body =
      setF (setF (preMergedOptions defaults options) "method" (.str method)) "body"
        (extendField
          (getF (setF (preMergedOptions defaults options) "method" (.str method)) "body")
          body) := by
    simp [requestOptionsOf, preMergedOptions, extendFields, extendField]
  have hbody : getF (setF (preMergedOptions defaults options) "method" (.str method)) "body" =
      getF (preMergedOptions defaults options) "body" :=
    getF_setF_ne _ _ _ _ (by decide)
  refine ⟨?_, ?_, ?_, ?_, ?_, ?_⟩
  · rw [key, getF_setF_ne _ _ _ _ (by decide), getF_setF_self]
  · intro h; subst h
    rw [key, getF_setF_self, hbody]
    rfl
  · intro s h; subst h
    rw [key, getF_setF_self]
    rfl
  · intro n h; subst h
    rw [key, getF_setF_self]
    rfl
  · intro h; subst h
    rw [key, getF_setF_self]
    rfl
  · intro bf h; subst h
    rw [key, getF_setF_self, hbody]

/-- C4 (witness for the amended theorem at concrete inputs, one per
body shape). -/
theorem c4_merge_precedence_witness :
    getF (requestOptionsOf [] (some [("body", .str "keep")]) "GET" .undefined) "method" =
      .str "GET" ∧
    getF (requestOptionsOf [] (some [("body", .str "keep")]) "GET" .undefined) "body" =
      getF (preMergedOptions [] (some [("body", .str "keep")])) "body" ∧
    getF (requestOptionsOf [] none "PUT" (.str "text")) "body" = .str "text" ∧
    getF (requestOptionsOf [] none "PUT" (.num 7)) "body" = .num 7 ∧
    getF (requestOptionsOf [] none "PUT" .null) "body" = .null ∧
    getF (requestOptionsOf [] (some [("body", .obj [("a", .num 1)])]) "PUT"
        (.obj [("b", .num 2)])) "body" =
      extendField (getF (preMergedOptions [] (some [("body", .obj [("a", .num 1)])])) "body")
        (.obj [("b", .num 2)]) :=
  ⟨(c4_merge_precedence [] (some [("body", .str "keep")]) "GET" .undefined).1,
   (c4_merge_precedence [] (some [("body", .str "keep")]) "GET" .undefined).2.1 rfl,
   (c4_merge_precedence [] none "PUT" (.str "text")).2.2.1 "text" rfl,
   (c4_merge_precedence [] none "PUT" (.num 7)).2.2.2.1 7 rfl,
   (c4_merge_precedence [] none "PUT" .null).2.2.2.2.1 rfl,
   (c4_merge_precedence [] (some [("body", .obj [("a", .num 1)])]) "PUT"
      (.obj [("b", .num 2)])).2.2.2.2.2 [("b", .num 2)] rfl⟩

/-! ## Claim C7 — body serialization by content type -/

/-- C7: with a non-null object body and a content type resolved from
the merged headers (`Content-Type` first, then `content-type`), the
transmitted body is the JSON text of the body argument exactly when the
content type lower-cases to `application/json`, and its query-string
serialization otherwise; when no content type resolves, or the body is
not a non-null object, the serialization step leaves the merged
request options (and so the merged body) unchanged. -/
theorem c7_content_type_serialization :
    (∀ (defaults : RequestOptions) (options : Option RequestOptions) (method : String)
        (bf : List (String × JVal)) (s : String),
      contentTypeOf (requestOptionsOf defaults options method (.obj bf)) = .str s →
      s ≠ "" →
      getF (finalRequestOptions defaults options method (.obj bf)) "body" =
        .str (if toLowerStr s = "application/json"
              then jsonStringify (.obj bf) else buildQueryStringJ bf)) ∧
    (∀ (defaults : RequestOptions) (options : Option RequestOptions) (method : String)
        (bf : List (String × JVal)),
      jsTruthy (contentTypeOf (requestOptionsOf defaults options method (.obj bf))) = false →
      finalRequestOptions defaults options method (.obj bf) =
        requestOptionsOf defaults options method (.obj bf)) ∧
    (∀ (defaults : RequestOptions) (options : Option RequestOptions) (method : String)
        (body : JVal),
      isObjJV body = false →
      finalRequestOptions defaults options method body =
        requestOptionsOf defaults options method body) := by
  refine ⟨?_, ?_, ?_⟩
  · intro defaults options method bf s hct hs
    have htS : jsTruthy (JVal.str s) = true := by simp [jsTruthy, hs]
    rw [finalRequestOptions, applyBodySerialization]
    simp only [hct, jsDisplay]
    rw [if_pos htS, getF_setF_self]
  · intro defaults options method bf h
    rw [finalRequestOptions, applyBodySerialization]
    simp [h]
  · intro defaults options method body h
    cases body with
    | obj bf => simp [isObjJV] at h
    | undefined => rfl
    | null => rfl
    | str s => rfl
    | num n => rfl

/-- C7 (witness): a JSON content type JSON-serializes an object body; a
form-urlencoded content type query-string-serializes it; no resolvable
content type leaves the options unchanged; a string body is never
serialized. -/
theorem c7_content_type_serialization_witness :
    (contentTypeOf (requestOptionsOf defaultRestDefaults none "POST" (.obj [("a", .num 1)])) =
        .str "application/json" ∧
      getF (finalRequestOptions defaultRestDefaults none "POST" (.obj [("a", .num 1)])) "body" =
        .str (if toLowerStr "application/json" = "application/json"
              then jsonStringify (.obj [("a", .num 1)])
              else buildQueryStringJ [("a", .num 1)])) ∧
    (contentTypeOf (requestOptionsOf
          [("headers", .obj [("content-type", .str "application/x-www-form-urlencoded")])]
          none "POST" (.obj [("a", .num 1)])) =
        .str "application/x-www-form-urlencoded" ∧
      getF (finalRequestOptions
          [("headers", .obj [("content-type", .str "application/x-www-form-urlencoded")])]
          none "POST" (.obj [("a", .num 1)])) "body" =
        .str (if toLowerStr "application/x-www-form-urlencoded" = "application/json"
              then jsonStringify (.obj [("a", .num 1)])
              else buildQueryStringJ [("a", .num 1)])) ∧
    finalRequestOptions [] none "POST" (.obj [("a", .num 1)]) =
      requestOptionsOf [] none "POST" (.obj [("a", .num 1)]) ∧
    finalRequestOptions defaultRestDefaults none "POST" (.str "raw") =
      requestOptionsOf defaultRestDefaults none "POST" (.str "raw") :=
  ⟨⟨rfl, c7_content_type_serialization.1 defaultRestDefaults none "POST"
      [("a", .num 1)] "application/json" rfl (by decide)⟩,
   ⟨rfl, c7_content_type_serialization.1
      [("headers", .obj [("content-type", .str "application/x-www-form-urlencoded")])]
      none "POST" [("a", .num 1)] "application/x-www-form-urlencoded" rfl (by decide)⟩,
   c7_content_type_serialization.2.1 [] none "POST" [("a", .num 1)] rfl,
   c7_content_type_serialization.2.2 defaultRestDefaults none "POST" (.str "raw") rfl⟩

/-! ## Claim C3 — registry default-endpoint invariant -/

theorem setDefaultEndpoint_invariant (c : Config) (name : String) (h : name ≠ "") :
    registryInvariant (c.setDefaultEndpoint name) = true := by
  cases hl : lookupEp c.endpoints name with
  | none =>
    simp [registryInvariant, Config.setDefaultEndpoint, Config.getEndpoint, h, hl]
  | some cl =>
    simp only [registryInvariant, Config.setDefaultEndpoint, Config.getEndpoint,
      if_neg h, hl]
    exact lookupEp_any_id c.endpoints name cl hl

/-- C3 (counterexample): the invariant does not survive re-registration
under the name backing the current default.  After registering `x`
with base URL `http://a`, making it the default, and re-registering `x`
with base URL `http://b`, the default still references the replaced
client (base URL `http://a`) while the map stores a fresh client (base
URL `http://b`) — the default is no longer identical to any stored
client. -/
theorem c3_counterexample :
    registryInvariant
        (((Config.initial.registerEndpoint "x" (.url "http://a") none).setDefaultEndpoint
            "x").registerEndpoint "x" (.url "http://b") none) = false ∧
    ((((Config.initial.registerEndpoint "x" (.url "http://a") none).setDefaultEndpoint
            "x").registerEndpoint "x" (.url "http://b") none).defaultEndpoint.map
        RestClient.baseUrl) = some (some "http://a") ∧
    ((lookupEp (((Config.initial.registerEndpoint "x" (.url "http://a") none).setDefaultEndpoint
            "x").registerEndpoint "x" (.url "http://b") none).endpoints "x").map
        RestClient.baseUrl) = some (some "http://b") :=
  ⟨by decide, rfl, rfl⟩

/-- C3 (amended): the invariant "the default endpoint, if set, is
identical to some stored client" is preserved by every registry
operation except a re-registration that overwrites the only entry
holding the current default: `setDefaultEndpoint` with a nonempty name
(re)establishes it outright, `setDefaultBaseUrl` never affects it, and
`registerEndpoint` preserves it whenever the current default is also
stored under some name other than the one being registered; a bulk
`configure` carrying a truthy top-level `defaultEndpoint` always ends
with the invariant holding.  Re-registration under the sole name
backing the default violates it (see the counterexample). -/
theorem c3_default_endpoint_invariant :
    (∀ (c : Config) (name : String), name ≠ "" →
      registryInvariant (c.setDefaultEndpoint name) = true) ∧
    (∀ (c : Config) (url : String),
      registryInvariant (c.setDefaultBaseUrl url) = registryInvariant c) ∧
    (∀ (c : Config) (name : String) (src : ConfigureSource)
        (dfl : Option RequestOptions),
      (∀ cl, c.defaultEndpoint = some cl →
        ∃ p ∈ c.endpoints, p.1 ≠ name ∧ p.2.id = cl.id) →
      registryInvariant (c.registerEndpoint name src dfl) = true) ∧
    (∀ (c : Config) (cfg : BulkConfig) (s : String),
      cfg.defaultEndpoint = some s → s ≠ "" →
      registryInvariant (c.configure cfg) = true) := by
  refine ⟨setDefaultEndpoint_invariant, fun c url => rfl, ?_, ?_⟩
  · intro c name src dfl hprev
    cases hd : c.defaultEndpoint with
    | none => simp [registryInvariant, Config.registerEndpoint, hd]
    | some cl =>
      obtain ⟨p, hmem, hne, hid⟩ := hprev cl hd
      simp only [registryInvariant, Config.registerEndpoint, hd]
      exact List.any_eq_true.mpr
        ⟨p, mem_storeEp_of_keyNe c.endpoints name _ p hmem hne, by simp [hid]⟩
  · intro c cfg s hcfg hs
    unfold Config.configure
    rw [hcfg]
    simp only [ne_eq, hs, not_false_eq_true, if_true]
    exact setDefaultEndpoint_invariant _ s hs

/-- C3 (witness for the amended theorem at concrete inputs). -/
theorem c3_default_endpoint_invariant_witness :
    registryInvariant (Config.initial.setDefaultEndpoint "x") = true ∧
    registryInvariant (Config.initial.setDefaultBaseUrl "http://a") =
      registryInvariant Config.initial ∧
    registryInvariant (Config.initial.registerEndpoint "x" .absent none) = true ∧
    registryInvariant (Config.initial.configure
      { defaultBaseUrl := none, endpoints := [], defaultEndpoint := some "x" }) = true :=
  ⟨c3_default_endpoint_invariant.1 Config.initial "x" (by decide),
   c3_default_endpoint_invariant.2.1 Config.initial "http://a",
   c3_default_endpoint_invariant.2.2.1 Config.initial "x" .absent none
     (fun _ h => Option.noConfusion h),
   c3_default_endpoint_invariant.2.2.2 Config.initial
     { defaultBaseUrl := none, endpoints := [], defaultEndpoint := some "x" } "x"
     rfl (by decide)⟩

/-! ## Claim C5 — bulk configuration precedence -/

/-- C5: `configure({defaultBaseUrl: "http://a", endpoints: [{name: "x",
default: true}], defaultEndpoint: "y"})` with `"y"` unregistered leaves
`getEndpoint()` at null: without the top-level override the per-entry
`default: true` flag would leave `x`'s client as the default, but the
override, applied after the loop, resolves `"y"` to null and wins. -/
theorem c5_bulk_configure_precedence :
    (Config.initial.configure
        { defaultBaseUrl := some "http://a",
          endpoints := [{ name := "x", endpoint := .absent, config := none,
                          isDefault := true }],
          defaultEndpoint := some "y" }).getEndpoint none = none ∧
    (Config.initial.configure
        { defaultBaseUrl := some "http://a",
          endpoints := [{ name := "x", endpoint := .absent, config := none,
                          isDefault := true }],
          defaultEndpoint := none }).getEndpoint none =
      (Config.initial.configure
        { defaultBaseUrl := some "http://a",
          endpoints := [{ name := "x", endpoint := .absent, config := none,
                          isDefault := true }],
          defaultEndpoint := none }).getEndpoint (some "x") ∧
    ((Config.initial.configure
        { defaultBaseUrl := some "http://a",
          endpoints := [{ name := "x", endpoint := .absent, config := none,
                          isDefault := true }],
          defaultEndpoint := none }).getEndpoint (some "x")).isSome = true :=
  ⟨rfl, rfl, rfl⟩

/-! ## Claim C8 — endpoint lookup never fails -/

/-- C8 (counterexample): "getEndpoint(name) for an unregistered name
returns null" fails for the empty-string name: with `x` registered and
set as default, nothing is registered under `""`, yet
`getEndpoint("")` returns the default client, not null (the falsy name
falls through to the default branch). -/
theorem c8_counterexample :
    lookupEp ((Config.initial.registerEndpoint "x" .absent none).setDefaultEndpoint
        "x").endpoints "" = none ∧
    (((Config.initial.registerEndpoint "x" .absent none).setDefaultEndpoint
        "x").getEndpoint (some "")).isSome = true :=
  ⟨rfl, rfl⟩

/-- C8 (amended): endpoint lookup never fails — `getEndpoint()` with no
name returns the current default endpoint (null when unset);
`getEndpoint(name)` for an unregistered *nonempty* name returns null
(the empty-string name is falsy and yields the default endpoint
instead, see the counterexample); and `setDefaultEndpoint("missing")`
on an empty registry silently sets the default to null, so a
subsequent `getEndpoint()` returns null. -/
theorem c8_lookup_never_fails :
    (∀ c : Config, c.getEndpoint none = c.defaultEndpoint) ∧
    (∀ (c : Config) (name : String), name ≠ "" → lookupEp c.endpoints name = none →
      c.getEndpoint (some name) = none) ∧
    (Config.initial.setDefaultEndpoint "missing").getEndpoint none = none :=
  ⟨fun _ => rfl,
   fun c name hne hlk => by simp [Config.getEndpoint, hne, hlk],
   rfl⟩

/-- C8 (witness for the amended theorem at a concrete input). -/
theorem c8_lookup_never_fails_witness :
    ("y" ≠ "" ∧ lookupEp Config.initial.endpoints "y" = none) ∧
    Config.initial.getEndpoint (some "y") = none :=
  ⟨⟨by decide, rfl⟩, c8_lookup_never_fails.2.1 Config.initial "y" (by decide) rfl⟩

/-! ## Claim C10 — falsy name arguments to getEndpoint -/

/-- C10: `getEndpoint` treats the empty-string (falsy) name exactly
like an absent name, returning the current default endpoint; in
consequence every non-null lookup result is either the default
endpoint or the entry of a *nonempty* registered name, so a client
stored under the empty-string key is never reachable through
`getEndpoint`. -/
theorem c10_falsy_name_lookup :
    (∀ c : Config, c.getEndpoint (some "") = c.getEndpoint none) ∧
    (∀ (c : Config) (arg : Option String), (c.getEndpoint arg).isSome = true →
      c.getEndpoint arg = c.defaultEndpoint ∨
      ∃ s, arg = some s ∧ s ≠ "" ∧ c.getEndpoint arg = lookupEp c.endpoints s) := by
  constructor
  · intro c
    simp [Config.getEndpoint]
  · intro c arg _
    cases arg with
    | none => exact Or.inl rfl
    | some s =>
      by_cases hs : s = ""
      · subst hs
        exact Or.inl (by simp [Config.getEndpoint])
      · exact Or.inr ⟨s, rfl, hs, by simp [Config.getEndpoint, hs]⟩

/-- C10 (witness at a concrete input: a registered nonempty name). -/
theorem c10_falsy_name_lookup_witness :
    ((Config.initial.registerEndpoint "x" .absent none).getEndpoint (some "x")).isSome = true ∧
    ((Config.initial.registerEndpoint "x" .absent none).getEndpoint (some "x") =
        (Config.initial.registerEndpoint "x" .absent none).defaultEndpoint ∨
      ∃ s, (some "x" : Option String) = some s ∧ s ≠ "" ∧
        (Config.initial.registerEndpoint "x" .absent none).getEndpoint (some "x") =
          lookupEp (Config.initial.registerEndpoint "x" .absent none).endpoints s) :=
  ⟨rfl, c10_falsy_name_lookup.2 (Config.initial.registerEndpoint "x" .absent none)
    (some "x") rfl⟩
